import Mathlib

/-!
Verification of the GPIB communicator layer
(`instruments/abstract_instruments/comm/gpib_communicator.py`).

The development shallowly embeds `GPIBCommunicator` as a state machine:

* `GPIB` holds the session fields (`_model`, `_version`, `_gpib_address`,
  `_terminator`, `_eoi`, `_eos`, `_timeout`, `_sleeptime`, and the wrapped
  channel's terminator/timeout/address which the class mutates through
  `self._file`).
* Every observable side effect on the wrapped channel (`self._file`) is
  recorded as an `Event` in a trace: commands sent with `sendcmd`,
  delegate reads, terminator/timeout/address assignments, and sleeps.
* Python exceptions are modelled by `Res.err`: each operation returns the
  state as it stands when the operation finishes or when the exception
  escapes, the trace of channel effects performed up to that point, the
  escaped exception (if any), and the returned string (if any).

Python values flowing into the setters (ints, strs, bools, None, lists)
are modelled by `PyVal`.  As in Python, `bool` is treated as a subtype of
`int` by `isinstance(_, int)` checks (`PyVal.asInt?`).  Time quantities
are modelled as rational numbers of seconds; the units library
(`assume_units`, `.to(...)`) only scales magnitudes, which the embedding
performs directly.
-/

/-- Python exception classes raised by the code under verification. -/
inductive PyErr
  | valueError
  | typeError
  | nameError
  | indexError
deriving DecidableEq, Repr

/-- `GPIBCommunicator.Model`: the supported GPIB controller models. -/
inductive Model
  | gi
  | pl
deriving DecidableEq, Repr

/-- Scalar Python values accepted by the property setters. -/
inductive PyAtom
  | int (n : Int)
  | str (s : String)
  | bool (b : Bool)
  | none
deriving DecidableEq, Repr

/-- Python values accepted by the property setters.  Lists appear only as
inputs to the `address` setter (`[gpib_address, downstream_address]`); the
embedding models lists of scalars, which covers every shape the setter
distinguishes. -/
inductive PyVal
  | int (n : Int)
  | str (s : String)
  | bool (b : Bool)
  | none
  | list (xs : List PyAtom)
deriving DecidableEq, Repr

/-- View a scalar as a `PyVal` (used when the `address` setter recurses
into a list element: `self.address = newval[0]`). -/
def PyAtom.toVal : PyAtom → PyVal
  | .int n => .int n
  | .str s => .str s
  | .bool b => .bool b
  | .none => .none

/-- Python `isinstance(v, int)` view: `bool` is an `int` subclass, with
`True == 1` and `False == 0`. -/
def PyVal.asInt? : PyVal → Option Int
  | .int n => some n
  | .bool b => some (if b then 1 else 0)
  | _ => Option.none

/-- Python `repr` on a scalar, as used when formatting list elements. -/
def pyAtomRepr : PyAtom → String
  | .int n => toString n
  | .str s => "'" ++ s ++ "'"
  | .bool b => if b then "True" else "False"
  | .none => "None"

/-- Python `str`, as used by f-string interpolation in the source. -/
def pyStr : PyVal → String
  | .int n => toString n
  | .str s => s
  | .bool b => if b then "True" else "False"
  | .none => "None"
  | .list xs => "[" ++ String.intercalate ", " (xs.map pyAtomRepr) ++ "]"

/-- Python `ord` on a string: defined only on strings of length one,
otherwise `ord` raises `TypeError`. -/
def pyOrd (t : String) : Option Int :=
  match t.data with
  | [c] => some (c.toNat : Int)
  | _ => Option.none

/-- Python `chr` on an in-range code point, as a one-character string.
(Python accepts `0 ≤ n ≤ 0x10FFFF`; the out-of-range `ValueError` is
raised by the caller of this function.) -/
def chrStr (n : Int) : String :=
  String.singleton (Char.ofNat n.toNat)

/-- Python `str.lower()` (the source only lowercases ASCII inputs such as
`"EOI"`). -/
def pyLower (t : String) : String :=
  ⟨t.data.map Char.toLower⟩

/-- Python's `str.strip()` whitespace set. -/
def pyWs (c : Char) : Bool :=
  c == ' ' || c == '\t' || c == '\n' || c == '\r' || c == '\x0b' || c == '\x0c'

/-- Python `str.strip()`: drop leading and trailing whitespace. -/
def pyStrip (t : String) : String :=
  ⟨((t.data.dropWhile pyWs).reverse.dropWhile pyWs).reverse⟩

/-- Python `int(q)` on a magnitude of seconds: truncation toward zero
(`Int.tdiv` truncates toward zero, matching Python's `int()`). -/
def secInt (q : ℚ) : Int :=
  Int.tdiv q.num q.den

/-- Python `int((q * 1000 ms/s))`: the millisecond magnitude of `q`
seconds, truncated toward zero.  `q * 1000 = (num * 1000) / den` exactly,
so the truncation is computed directly on numerator and denominator. -/
def msInt (q : ℚ) : Int :=
  Int.tdiv (q.num * 1000) q.den

/-- The rational 0.01 (one hundredth), the constructor's sleep time in
seconds, written as an explicit fraction. -/
def ratHundredth : ℚ := ⟨1, 100, by decide, by decide⟩

/-- Observable side effects on the wrapped channel object `self._file`. -/
inductive Event
  | cmd (s : String)                      -- `self._file.sendcmd(s)`
  | fileQuery (s : String)                -- `self._file.query(s)` (constructor only)
  | fileRead (size : Int)                 -- `self._file.read(size, encoding)`
  | setFileTerm (t : Option String)       -- `self._file.terminator = t`
  | setFileTimeout (sec : ℚ)              -- `self._file.timeout = sec`
  | setFileAddr (a : PyVal)               -- `self._file.address = a`
  | sleep (sec : ℚ)                       -- `time.sleep(sec)`
deriving DecidableEq, Repr

/-- The session state of a `GPIBCommunicator`, together with the fields of
the wrapped channel that the class reads back (`_file.terminator`). -/
structure GPIB where
  model : Model                    -- `self._model`
  version : Int                    -- `self._version` (only assigned for GI;
                                   --  never read for PL, mirroring Python's
                                   --  short-circuit on `self._model == gi`)
  gpib_address : PyVal             -- `self._gpib_address` (stored unvalidated
                                   --  by the constructor)
  file_terminator : Option String  -- `self._file.terminator`
  network_terminator : Option String -- `self._network_terminator`
  terminator_f : Option String     -- `self._terminator` (Python `None` = `none`)
  eoi : Bool                       -- `self._eoi`
  eos : PyVal                      -- `self._eos`
  timeout_s : ℚ                    -- `self._timeout`, in seconds
  file_timeout : ℚ                 -- `self._file.timeout`, in seconds (the
                                   --  channel's preexisting value is opaque;
                                   --  modelled as 0 until first assigned)
  sleeptime : ℚ                    -- `self._sleeptime`, in seconds
  file_address : PyVal             -- `self._file.address`
deriving DecidableEq, Repr

/-- Result of one operation: final state, trace of channel effects, the
Python exception that escaped (if any), and the returned string (if any). -/
structure Res where
  st : GPIB
  tr : List Event
  err : Option PyErr
  val : Option String
deriving DecidableEq, Repr

/-- Sequencing with Python exception semantics: if the first step raised,
the second is never executed; otherwise traces accumulate in order. -/
def Res.andThen (r : Res) (f : GPIB → Res) : Res :=
  match r.err with
  | some _ => r
  | Option.none =>
    let r2 := f r.st
    ⟨r2.st, r.tr ++ r2.tr, r2.err, r2.val⟩

/-- `self._model == GPIBCommunicator.Model.gi and self._version <= 4`:
the legacy Galvant Industries firmware dialect. -/
def isLegacy (s : GPIB) : Bool :=
  s.model == Model.gi && decide (s.version ≤ 4)

/-- The `terminator` property getter:
`if not self._eoi: return self._terminator` / `return "eoi"`. -/
def terminator (s : GPIB) : Option String :=
  if s.eoi then some "eoi" else s.terminator_f

/-- The `sleeptime` setter: accept 0–10 seconds, otherwise `ValueError`.
No command is sent to the channel by this setter. -/
def set_sleeptime (s : GPIB) (v : ℚ) : Res :=
  if 0 ≤ v ∧ v ≤ 10 then ⟨{ s with sleeptime := v }, [], Option.none, Option.none⟩
  else ⟨s, [], some PyErr.valueError, Option.none⟩

/-- The `address` setter.  An `int` (which in Python includes `bool`)
within 1–30 updates `self._gpib_address`; a list recurses into itself with
element 0 and then assigns element 1 to `self._file.address` — note that a
one-element list performs the recursive assignment *before* the
`IndexError` from `newval[1]` is raised; anything else is a `TypeError`.
The recursion `self.address = newval[0]` is expanded through
`set_address_scalar` (list elements are scalars in this model, so the
recursive call never sees a list again). -/
def set_address_scalar (s : GPIB) (v : PyVal) : Res :=
  match v.asInt? with
  | some n =>
    if n < 1 ∨ n > 30 then ⟨s, [], some PyErr.valueError, Option.none⟩
    else ⟨{ s with gpib_address := v }, [], Option.none, Option.none⟩
  | Option.none => ⟨s, [], some PyErr.typeError, Option.none⟩

def set_address (s : GPIB) (v : PyVal) : Res :=
  match v with
  | .list [] => ⟨s, [], some PyErr.indexError, Option.none⟩
  | .list [x] =>
    (set_address_scalar s x.toVal).andThen
      (fun s1 => ⟨s1, [], some PyErr.indexError, Option.none⟩)
  | .list (x :: y :: _) =>
    (set_address_scalar s x.toVal).andThen
      (fun s1 => ⟨{ s1 with file_address := y.toVal },
                  [Event.setFileAddr y.toVal], Option.none, Option.none⟩)
  | w => set_address_scalar s w

/-- The `timeout` setter: no validation; emits `+t:<sec>` (legacy GI) or
`++read_tmo_ms <ms>` and then pushes the timeout onto the channel.  The
input is a duration in seconds (`assume_units(newval, u.second)`). -/
def set_timeout (s : GPIB) (v : ℚ) : Res :=
  let c := if isLegacy s then "+t:" ++ toString (secInt v)
           else "++read_tmo_ms " ++ toString (msInt v)
  ⟨{ s with timeout_s := v, file_timeout := v },
   [Event.cmd c, Event.setFileTimeout v], Option.none, Option.none⟩

/-- The `eoi` setter: booleans only (`TypeError` otherwise); stores the
flag and emits `+eoi:<0/1>` (legacy GI) or `++eoi <0/1>`. -/
def set_eoi (s : GPIB) (v : PyVal) : Res :=
  match v with
  | .bool b =>
    ⟨{ s with eoi := b },
     [Event.cmd ((if isLegacy s then "+eoi:" else "++eoi ")
                  ++ (if b then "1" else "0"))],
     Option.none, Option.none⟩
  | _ => ⟨s, [], some PyErr.typeError, Option.none⟩

/-- The branch structure of the `eos` setter, as a pure function of the
dialect and the input: on success it yields the value cached in
`self._eos` and the command string sent to the adapter.

Legacy GI: a `str` is passed through `ord` (so a non-single-character
string raises `TypeError`), any other value is formatted into
`+eos:<value>` verbatim and cached as given — the legacy branch performs
no range validation.  Modern GI / PL: an `int` (including `bool`) is
first converted with `str(chr(n))` (out-of-range raises `ValueError`),
then the value is compared against CRLF/CR/LF/`None`, mapping to
`++eos 0`–`++eos 3`; anything else raises `ValueError`. -/
def eosStep (legacy : Bool) (v : PyVal) : Except PyErr (PyVal × String) :=
  if legacy then
    match v with
    | .str t =>
      match pyOrd t with
      | some n => .ok (.int n, "+eos:" ++ toString n)
      | Option.none => .error PyErr.typeError
    | w => .ok (w, "+eos:" ++ pyStr w)
  else
    match (match v with
           | .int n =>
             if n < 0 ∨ n > 1114111 then Except.error PyErr.valueError
             else Except.ok (PyVal.str (chrStr n))
           | .bool b => Except.ok (PyVal.str (chrStr (if b then 1 else 0)))
           | w => Except.ok w : Except PyErr PyVal) with
    | .error e => .error e
    | .ok (.str t) =>
      if t = "\r\n" then .ok (.str t, "++eos 0")
      else if t = "\r" then .ok (.str t, "++eos 1")
      else if t = "\n" then .ok (.str t, "++eos 2")
      else .error PyErr.valueError
    | .ok .none => .ok (.none, "++eos 3")
    | .ok _ => .error PyErr.valueError

/-- The `eos` setter: runs `eosStep`, caches the resulting value in
`self._eos` and sends the resulting command; on failure the exception
escapes before any field is mutated or any command sent. -/
def set_eos (s : GPIB) (v : PyVal) : Res :=
  match eosStep (isLegacy s) v with
  | .ok (w, c) => ⟨{ s with eos := w }, [Event.cmd c], Option.none, Option.none⟩
  | .error e => ⟨s, [], some e, Option.none⟩

/-- `self._terminator = self.eos` in the modern branch of the
`terminator` setter: after a successful modern `eos` assignment the cached
`_eos` is a string or `None`. -/
def optStrOf : PyVal → Option String
  | .str t => some t
  | _ => Option.none

/-- The `terminator` setter.  Strings are lowercased first.  Legacy GI:
`"eoi"` delegates to `set_eoi True`; a non-`int` must be a
single-character string (taken through `ord`, then `set_eoi False` and
`set_eos`), otherwise `TypeError`; an `int` outside 0–255 is a
`ValueError`; an in-range `int` runs `set_eoi False`, `set_eos`, and
stores `chr(n)` in `self._terminator` (note the single-character-string
path does *not* update `self._terminator`, exactly as in the source).
Modern GI / PL: a non-`"eoi"` value runs `set_eos`, `set_eoi False`, and
copies the cached `eos` into `self._terminator`; `"eoi"` runs
`set_eos None`, stores the sentinel, and `set_eoi True`. -/
def set_terminator (s : GPIB) (v0 : PyVal) : Res :=
  let v := match v0 with | .str t => .str (pyLower t) | w => w
  if isLegacy s then
    if v = .str "eoi" then set_eoi s (.bool true)
    else
      match v.asInt? with
      | Option.none =>
        match v with
        | .str t =>
          match pyOrd t with
          | some n =>
            (set_eoi s (.bool false)).andThen (fun s1 => set_eos s1 (.int n))
          | Option.none => ⟨s, [], some PyErr.typeError, Option.none⟩
        | _ => ⟨s, [], some PyErr.typeError, Option.none⟩
      | some n =>
        if n < 0 ∨ n > 255 then ⟨s, [], some PyErr.valueError, Option.none⟩
        else
          ((set_eoi s (.bool false)).andThen (fun s1 => set_eos s1 v)).andThen
            (fun s2 => ⟨{ s2 with terminator_f := some (chrStr n) },
                        [], Option.none, Option.none⟩)
  else
    if v ≠ .str "eoi" then
      ((set_eos s v).andThen (fun s1 => set_eoi s1 (.bool false))).andThen
        (fun s2 => ⟨{ s2 with terminator_f := optStrOf s2.eos },
                    [], Option.none, Option.none⟩)
    else
      ((set_eos s .none).andThen
        (fun s1 => ⟨{ s1 with terminator_f := some "eoi" },
                    [], Option.none, Option.none⟩)).andThen
        (fun s2 => set_eoi s2 (.bool true))

/-- `GPIBCommunicator.__init__(filelike, gpib_address, model)`.

The supplied `gpib_address` is stored without validation.  The channel
terminator is forced to `"\r"` and recorded as the network terminator;
a GI session queries the firmware version (`+ver`, whose parsed integer
reply is the `version` argument here); a PL session is put in controller
mode and auto-read is disabled.  Then `self.terminator = "\n"` runs the
full terminator setter, after which `_eoi`, `_timeout` and `_eos` are
overwritten *directly* (no commands are sent for these assignments), and
finally the sleep time is set to 0.01 s through its setter. -/
def mkGPIB (model : Model) (gpib_address : PyVal) (version : Int) : Res :=
  let s0 : GPIB :=
    { model := model, version := version, gpib_address := gpib_address,
      file_terminator := some "\r", network_terminator := some "\r",
      terminator_f := Option.none, eoi := false, eos := PyVal.none,
      timeout_s := 0, file_timeout := 0, sleeptime := 0,
      file_address := PyVal.none }
  let initTr : List Event :=
    [Event.setFileTerm (some "\r")]
      ++ (if model = Model.gi then [Event.fileQuery "+ver"] else [])
      ++ (if model = Model.pl then [Event.cmd "++mode 1", Event.cmd "++auto 0"]
          else [])
  (⟨s0, initTr, Option.none, Option.none⟩ : Res).andThen
      (fun s1 => set_terminator s1 (.str "\n"))
    |>.andThen (fun s2 => ⟨{ s2 with eoi := true }, [], Option.none, Option.none⟩)
    |>.andThen (fun s3 => ⟨{ s3 with timeout_s := 1 }, [], Option.none, Option.none⟩)
    |>.andThen (fun s4 => ⟨{ s4 with eos := if isLegacy s4 then PyVal.int 10
                                            else PyVal.str "\n" },
                           [], Option.none, Option.none⟩)
    |>.andThen (fun s5 => set_sleeptime s5 ratHundredth)

/-- `GPIBCommunicator._sendcmd(msg)` (the body of the public `sendcmd`):
no-op on empty text; otherwise sends the model-appropriate addressing
command, then re-runs the `eoi`, `timeout` and `eos` setters on their own
cached values (`self.eoi = self.eoi`, …), writes the text, and sleeps for
`self._sleeptime` seconds. -/
def sendcmd (s : GPIB) (msg : String) : Res :=
  if msg = "" then ⟨s, [], Option.none, Option.none⟩
  else
    (⟨s, [Event.cmd ((if s.model = Model.gi then "+a:" else "++addr ")
                      ++ pyStr s.gpib_address)],
      Option.none, Option.none⟩ : Res).andThen
        (fun s1 => set_eoi s1 (.bool s1.eoi))
      |>.andThen (fun s2 => set_timeout s2 s2.timeout_s)
      |>.andThen (fun s3 => set_eos s3 s3.eos)
      |>.andThen (fun s4 => ⟨s4, [Event.cmd msg, Event.sleep s4.sleeptime],
                             Option.none, Option.none⟩)

/-- `GPIBCommunicator._initread(size)`.

The GI branch of the source is
`if self._model == GPIBCommunicator.Model.gi and "?" not in msg:` —
but `msg` is not bound anywhere in `_initread`'s scope (it is neither a
parameter nor a module-level name), so for a GI session evaluating the
condition raises `NameError` before anything is sent.  For a PL session
the conjunction short-circuits on the model test and the PL branch runs:
for an unbounded read with the `eoi` terminator the adapter's EOT marker
is configured from the channel terminator and `++read eoi` is issued
through the full `sendcmd`; with a character terminator the channel
terminator is swapped to the GPIB terminator, adapter EOT is disabled and
`++read <ord>` is issued through `sendcmd`; a bounded read issues a plain
`++read` and sleeps. -/
def initread (s : GPIB) (size : Int) : Res :=
  if s.model = Model.gi then ⟨s, [], some PyErr.nameError, Option.none⟩
  else if size = -1 then
    if terminator s = some "eoi" then
      match s.file_terminator with
      | some ft =>
        match pyOrd ft with
        | some n =>
          (⟨s, [Event.cmd ("++eot_char " ++ toString n),
                Event.cmd "++eot_enable 1"],
            Option.none, Option.none⟩ : Res).andThen
              (fun s1 => sendcmd s1 "++read eoi")
        | Option.none => ⟨s, [], some PyErr.typeError, Option.none⟩
      | Option.none => ⟨s, [], some PyErr.typeError, Option.none⟩
    else
      (⟨{ s with file_terminator := terminator s },
        [Event.setFileTerm (terminator s), Event.cmd "++eot_enable 0"],
        Option.none, Option.none⟩ : Res).andThen
          (fun s1 =>
            match terminator s1 with
            | some t =>
              match pyOrd t with
              | some n => sendcmd s1 ("++read " ++ toString n)
              | Option.none => ⟨s1, [], some PyErr.typeError, Option.none⟩
            | Option.none => ⟨s1, [], some PyErr.typeError, Option.none⟩)
  else
    (sendcmd s "++read").andThen
      (fun s1 => ⟨s1, [Event.sleep s1.sleeptime], Option.none, Option.none⟩)

/-- `GPIBCommunicator._endread()`: PL only — when the terminator in
effect is not `eoi`, restore the channel terminator to the network
default recorded at session start; otherwise (and for GI) do nothing. -/
def endread (s : GPIB) : Res :=
  if s.model = Model.pl then
    if terminator s ≠ some "eoi" then
      ⟨{ s with file_terminator := s.network_terminator },
       [Event.setFileTerm s.network_terminator], Option.none, Option.none⟩
    else ⟨s, [], Option.none, Option.none⟩
  else ⟨s, [], Option.none, Option.none⟩

namespace GPIBCommunicator

/-- `GPIBCommunicator.read(size, encoding)`: `_initread`, a delegate
channel read, `_endread`; returns the channel data unmodified.  The data
the channel would deliver is supplied as `resp`. -/
def read (s : GPIB) (size : Int) (resp : String) : Res :=
  let r := ((initread s size).andThen
              (fun s1 => ⟨s1, [Event.fileRead size], Option.none, some resp⟩)
           ).andThen endread
  ⟨r.st, r.tr, r.err, if r.err = Option.none then some resp else Option.none⟩

/-- `GPIBCommunicator._query(msg, size)` (the body of the public
`query`): `self.sendcmd(msg)`, then `self._initread(size)`, then
`self.read(size).strip()` — note that `read` itself runs `_initread`
again before the delegate read and `_endread` after it. -/
def query (s : GPIB) (msg : String) (size : Int) (resp : String) : Res :=
  let r := ((sendcmd s msg).andThen (fun s1 => initread s1 size)).andThen
             (fun s2 => read s2 size resp)
  ⟨r.st, r.tr, r.err, r.val.map pyStrip⟩

end GPIBCommunicator

/-- A freshly constructed Prologix session (address 5). -/
def Spl : GPIB := (mkGPIB Model.pl (PyVal.int 5) 5).st

/-- The same Prologix session after `terminator = "\n"` (a character
terminator, so unbounded reads go through the terminator-swap path). -/
def SplLf : GPIB := (set_terminator Spl (.str "\n")).st

/-- A freshly constructed legacy Galvant Industries session (firmware
version 4, address 5). -/
def Sgi : GPIB := (mkGPIB Model.gi (PyVal.int 5) 4).st

/-- A freshly constructed modern Galvant Industries session (firmware
version 6, address 5). -/
def SgiNew : GPIB := (mkGPIB Model.gi (PyVal.int 5) 6).st

/-- Modelled from the spec (amended claim C4): the inputs the modern
`eos` setter accepts — `"\r\n"`, `"\r"`, `"\n"`, `None`, and any integer
whose `chr` conversion is CR or LF.  Used only to compare the setter's
actual acceptance set against this specification. -/
def eosModernSpec : PyVal → Bool
  | .str t => t == "\r\n" || t == "\r" || t == "\n"
  | .none => true
  | .int n => decide (0 ≤ n) && decide (n ≤ 1114111)
                && (chrStr n == "\r" || chrStr n == "\n")
  | _ => false

/-! ## Helper lemmas -/

theorem andThen_of_err (r : Res) (f : GPIB → Res) (e : PyErr)
    (h : r.err = some e) : r.andThen f = r := by
  unfold Res.andThen
  rw [h]

theorem andThen_of_ok (r : Res) (f : GPIB → Res)
    (h : r.err = Option.none) :
    r.andThen f = ⟨(f r.st).st, r.tr ++ (f r.st).tr, (f r.st).err, (f r.st).val⟩ := by
  unfold Res.andThen
  rw [h]

theorem andThen_assoc (r : Res) (f g : GPIB → Res) :
    (r.andThen f).andThen g = r.andThen (fun s => (f s).andThen g) := by
  unfold Res.andThen
  rcases h : r.err with _ | e <;> simp [h]
  rcases h2 : (f r.st).err with _ | e2 <;> simp [h2]

theorem set_eos_of_ok (s : GPIB) (v w : PyVal) (c : String)
    (h : eosStep (isLegacy s) v = .ok (w, c)) :
    set_eos s v = ⟨{ s with eos := w }, [Event.cmd c], Option.none, Option.none⟩ := by
  unfold set_eos
  rw [h]

theorem set_eos_of_err (s : GPIB) (v : PyVal) (e : PyErr)
    (h : eosStep (isLegacy s) v = .error e) :
    set_eos s v = ⟨s, [], some e, Option.none⟩ := by
  unfold set_eos
  rw [h]

theorem chrStr_ne_crlf (n : Int) : chrStr n ≠ "\r\n" := by
  intro h
  have h2 := congrArg String.data h
  simp [chrStr, String.singleton] at h2

/-! ## Claim theorems -/

/-- C6: on a modern (non-legacy) session, setting `terminator` to `"\n"`
yields `eos = "\n"`, `eoi = false` and a terminator read-back of `"\n"`
(the setter emits `++eos 2` then `++eoi 0`); setting `terminator` to
`"eoi"`, from any prior EOS value, yields `eoi = true` and a terminator
read-back of `"eoi"` (emitting `++eos 3` then `++eoi 1`). -/
theorem terminator_roundtrip_modern (s : GPIB) (hmod : isLegacy s = false) :
    set_terminator s (.str "\n") =
      ⟨{ s with eos := PyVal.str "\n", eoi := false, terminator_f := some "\n" },
       [Event.cmd "++eos 2", Event.cmd "++eoi 0"], Option.none, Option.none⟩ ∧
    terminator (set_terminator s (.str "\n")).st = some "\n" ∧
    set_terminator s (.str "eoi") =
      ⟨{ s with eos := PyVal.none, terminator_f := some "eoi", eoi := true },
       [Event.cmd "++eos 3", Event.cmd "++eoi 1"], Option.none, Option.none⟩ ∧
    terminator (set_terminator s (.str "eoi")).st = some "eoi" := by
  obtain ⟨mo, ver, ga, ft, nt, tf, eoi, eos, ts, fts, slp, fa⟩ := s
  have h1 : set_terminator ⟨mo, ver, ga, ft, nt, tf, eoi, eos, ts, fts, slp, fa⟩ (.str "\n") =
      ⟨⟨mo, ver, ga, ft, nt, some "\n", false, PyVal.str "\n", ts, fts, slp, fa⟩,
       [Event.cmd "++eos 2", Event.cmd "++eoi 0"], Option.none, Option.none⟩ := by
    unfold set_terminator
    simp only [isLegacy] at hmod
    simp [hmod, set_eos, eosStep, set_eoi, isLegacy, Res.andThen, optStrOf,
          pyLower, PyVal.asInt?]
  have h2 : set_terminator ⟨mo, ver, ga, ft, nt, tf, eoi, eos, ts, fts, slp, fa⟩ (.str "eoi") =
      ⟨⟨mo, ver, ga, ft, nt, some "eoi", true, PyVal.none, ts, fts, slp, fa⟩,
       [Event.cmd "++eos 3", Event.cmd "++eoi 1"], Option.none, Option.none⟩ := by
    unfold set_terminator
    simp only [isLegacy] at hmod
    simp [hmod, set_eos, eosStep, set_eoi, isLegacy, Res.andThen, optStrOf,
          pyLower, PyVal.asInt?]
  refine ⟨h1, ?_, h2, ?_⟩
  · rw [h1]; rfl
  · rw [h2]; rfl

/-- Witness for C6, at a freshly constructed Prologix session. -/
theorem terminator_roundtrip_modern_witness :
    isLegacy Spl = false ∧
    (set_terminator Spl (.str "\n") =
      ⟨{ Spl with eos := PyVal.str "\n", eoi := false, terminator_f := some "\n" },
       [Event.cmd "++eos 2", Event.cmd "++eoi 0"], Option.none, Option.none⟩ ∧
     terminator (set_terminator Spl (.str "\n")).st = some "\n" ∧
     set_terminator Spl (.str "eoi") =
      ⟨{ Spl with eos := PyVal.none, terminator_f := some "eoi", eoi := true },
       [Event.cmd "++eos 3", Event.cmd "++eoi 1"], Option.none, Option.none⟩ ∧
     terminator (set_terminator Spl (.str "eoi")).st = some "eoi") :=
  ⟨by decide, terminator_roundtrip_modern Spl (by decide)⟩

theorem ratHundredth_range : 0 ≤ ratHundredth ∧ ratHundredth ≤ 10 := by decide

theorem eos10_str : "+eos:" ++ toString (10 : Int) = "+eos:10" := by decide

theorem set_address_int_out_of_range (s : GPIB) (n : Int) (hn : n < 1 ∨ n > 30) :
    set_address s (.int n) = ⟨s, [], some PyErr.valueError, Option.none⟩ := by
  unfold set_address set_address_scalar
  simp [PyVal.asInt?]
  omega

theorem mk_addr (m : Model) (a : PyVal) (ver : Int) :
    (mkGPIB m a ver).st.gpib_address = a := by
  cases m <;> unfold mkGPIB <;> by_cases hv : ver ≤ 4 <;>
    simp [Res.andThen, set_terminator, set_eoi, set_eos, eosStep, set_sleeptime,
          isLegacy, hv, pyLower, pyOrd, pyStr, PyVal.asInt?, optStrOf,
          ratHundredth_range]

theorem mk_eoi_state (m : Model) (a : PyVal) (ver : Int) :
    (mkGPIB m a ver).st.eoi = true ∧ terminator (mkGPIB m a ver).st = some "eoi" := by
  cases m <;> unfold mkGPIB <;> by_cases hv : ver ≤ 4 <;>
    simp [Res.andThen, set_terminator, set_eoi, set_eos, eosStep, set_sleeptime,
          isLegacy, hv, pyLower, pyOrd, pyStr, PyVal.asInt?, optStrOf,
          ratHundredth_range, terminator]

theorem mk_tr_gi_legacy (a : PyVal) (ver : Int) (hv : ver ≤ 4) :
    (mkGPIB Model.gi a ver).tr =
      [Event.setFileTerm (some "\r"), Event.fileQuery "+ver",
       Event.cmd "+eoi:0", Event.cmd "+eos:10"] := by
  unfold mkGPIB
  simp [Res.andThen, set_terminator, set_eoi, set_eos, eosStep, set_sleeptime,
        isLegacy, hv, pyLower, pyOrd, pyStr, PyVal.asInt?, optStrOf,
        ratHundredth_range, eos10_str]

theorem mk_tr_gi_new (a : PyVal) (ver : Int) (hv : ¬ ver ≤ 4) :
    (mkGPIB Model.gi a ver).tr =
      [Event.setFileTerm (some "\r"), Event.fileQuery "+ver",
       Event.cmd "++eos 2", Event.cmd "++eoi 0"] := by
  unfold mkGPIB
  simp [Res.andThen, set_terminator, set_eoi, set_eos, eosStep, set_sleeptime,
        isLegacy, hv, pyLower, pyOrd, pyStr, PyVal.asInt?, optStrOf,
        ratHundredth_range]

theorem mk_tr_pl (a : PyVal) (ver : Int) :
    (mkGPIB Model.pl a ver).tr =
      [Event.setFileTerm (some "\r"), Event.cmd "++mode 1", Event.cmd "++auto 0",
       Event.cmd "++eos 2", Event.cmd "++eoi 0"] := by
  unfold mkGPIB
  simp [Res.andThen, set_terminator, set_eoi, set_eos, eosStep, set_sleeptime,
        isLegacy, pyLower, pyOrd, pyStr, PyVal.asInt?, optStrOf,
        ratHundredth_range]

/-- C1 (code bug): for every Galvant Industries session — regardless of
firmware version or read size — `_initread` raises `NameError` and sends
nothing, because its GI branch tests `"?" not in msg` with `msg` unbound
in `_initread`'s scope.  The claimed behaviour (send `+read` iff the
preceding command text contains no `"?"`) is unimplementable from within
`_initread`, which receives only the read size. -/
theorem initread_gi_raises (s : GPIB) (size : Int) (h : s.model = Model.gi) :
    initread s size = ⟨s, [], some PyErr.nameError, Option.none⟩ := by
  unfold initread
  rw [h]
  simp

/-- Witness for C1, right after constructing a legacy GI session. -/
theorem initread_gi_raises_witness :
    Sgi.model = Model.gi ∧
    initread Sgi (-1) = ⟨Sgi, [], some PyErr.nameError, Option.none⟩ :=
  ⟨by decide, initread_gi_raises Sgi (-1) (by decide)⟩

/-- C9: immediately after construction, for any model and firmware
version, the cached `eoi` flag is `true` and `terminator` reads back
`"eoi"` — yet the only EOI command the constructor ever sent is the
disable command (`+eoi:0` or `++eoi 0`, emitted while `terminator = "\n"`
was being assigned), and no enable command (`+eoi:1`/`++eoi 1`) appears
in the trace: the cached `eoi` disagrees with the last EOI command sent
to the adapter. -/
theorem construction_eoi_disagrees (m : Model) (a : PyVal) (ver : Int) :
    (mkGPIB m a ver).st.eoi = true ∧
    terminator (mkGPIB m a ver).st = some "eoi" ∧
    (Event.cmd "+eoi:0" ∈ (mkGPIB m a ver).tr ∨
     Event.cmd "++eoi 0" ∈ (mkGPIB m a ver).tr) ∧
    Event.cmd "+eoi:1" ∉ (mkGPIB m a ver).tr ∧
    Event.cmd "++eoi 1" ∉ (mkGPIB m a ver).tr := by
  refine ⟨(mk_eoi_state m a ver).1, (mk_eoi_state m a ver).2, ?_, ?_, ?_⟩ <;>
  cases m <;>
  first
    | (rw [mk_tr_pl a ver]; decide)
    | (by_cases hv : ver ≤ 4
       · rw [mk_tr_gi_legacy a ver hv]; decide
       · rw [mk_tr_gi_new a ver hv]; decide)

/-- C10: the constructor stores the supplied GPIB address without any
validation (so out-of-range sessions can be constructed), while the
`address` setter rejects every integer outside 1–30 with `ValueError`,
touching nothing. -/
theorem constructor_stores_address_unvalidated (m : Model) (a : PyVal)
    (ver n : Int) (hn : n < 1 ∨ n > 30) :
    (mkGPIB m a ver).st.gpib_address = a ∧
    set_address (mkGPIB m a ver).st (.int n) =
      ⟨(mkGPIB m a ver).st, [], some PyErr.valueError, Option.none⟩ :=
  ⟨mk_addr m a ver, set_address_int_out_of_range _ n hn⟩

/-- Witness for C10: a GI session constructed with address 99. -/
theorem constructor_stores_address_unvalidated_witness :
    ((31 : Int) < 1 ∨ (31 : Int) > 30) ∧
    ((mkGPIB Model.gi (PyVal.int 99) 5).st.gpib_address = PyVal.int 99 ∧
     set_address (mkGPIB Model.gi (PyVal.int 99) 5).st (.int 31) =
       ⟨(mkGPIB Model.gi (PyVal.int 99) 5).st, [], some PyErr.valueError,
        Option.none⟩) :=
  ⟨by decide,
   constructor_stores_address_unvalidated Model.gi (PyVal.int 99) 5 31 (by decide)⟩

theorem chrStr_10 : chrStr 10 = "\n" := by decide

theorem chrStr_13 : chrStr 13 = "\r" := by decide

theorem chrStr_0 : chrStr 0 = "\x00" := by decide

theorem chrStr_1 : chrStr 1 = "\x01" := by decide

/-- C3 (amended): `terminator` reads `"eoi"` when `eoi` is true and
otherwise reads the *separately stored* `_terminator` field — it is not
derived from `eos`: the `eos` setter changes neither `_terminator` nor
`eoi`, so setting `eos` alone leaves the terminator read-back unchanged. -/
theorem terminator_from_stored_field (s : GPIB) (v : PyVal) :
    (set_eos s v).st.terminator_f = s.terminator_f ∧
    (set_eos s v).st.eoi = s.eoi ∧
    terminator s = (if s.eoi then some "eoi" else s.terminator_f) := by
  unfold set_eos terminator
  rcases h : eosStep (isLegacy s) v with e | ⟨w, c⟩ <;> simp [h]

/-- Counterexample for C3 as stated: on a Prologix session whose
terminator was set to `"\n"`, directly setting `eos` to `"\r"` leaves the
terminator read-back at `"\n"` (while `eoi` is false and `eos` is
`"\r"`), so the terminator is not the character corresponding to the
current `eos`. -/
theorem eos_does_not_update_terminator :
    (set_eos SplLf (.str "\r")).st.eoi = false ∧
    (set_eos SplLf (.str "\r")).st.eos = PyVal.str "\r" ∧
    terminator (set_eos SplLf (.str "\r")).st = some "\n" ∧
    terminator (set_eos SplLf (.str "\r")).st ≠ some "\r" := by decide

/-- C4 (amended): on a modern session the `eos` setter accepts exactly
CRLF, CR, LF and `None` — emitting `++eos 0`–`++eos 3` and caching the
given value — and, in addition, integers: an integer input is first
converted through `str(chr(n))`, so exactly the integers whose character
is CR or LF (13 and 10) also succeed, caching the *converted character*;
every other input fails with a `ValueError` that leaves state and trace
untouched. -/
theorem set_eos_modern_spec (s : GPIB) (v : PyVal) (hmod : isLegacy s = false) :
    ((set_eos s v).err = Option.none ↔ eosModernSpec v = true) ∧
    set_eos s (.str "\r\n") =
      ⟨{ s with eos := .str "\r\n" }, [Event.cmd "++eos 0"], Option.none, Option.none⟩ ∧
    set_eos s (.str "\r") =
      ⟨{ s with eos := .str "\r" }, [Event.cmd "++eos 1"], Option.none, Option.none⟩ ∧
    set_eos s (.str "\n") =
      ⟨{ s with eos := .str "\n" }, [Event.cmd "++eos 2"], Option.none, Option.none⟩ ∧
    set_eos s .none =
      ⟨{ s with eos := .none }, [Event.cmd "++eos 3"], Option.none, Option.none⟩ ∧
    set_eos s (.int 10) =
      ⟨{ s with eos := .str "\n" }, [Event.cmd "++eos 2"], Option.none, Option.none⟩ ∧
    set_eos s (.int 13) =
      ⟨{ s with eos := .str "\r" }, [Event.cmd "++eos 1"], Option.none, Option.none⟩ ∧
    ((set_eos s v).err = Option.none ∨
      set_eos s v = ⟨s, [], some PyErr.valueError, Option.none⟩) := by
  unfold set_eos
  rw [hmod]
  refine ⟨?_, by simp [eosStep], by simp [eosStep], by simp [eosStep],
          by simp [eosStep], by simp [eosStep, chrStr_10], by simp [eosStep, chrStr_13],
          ?_⟩
  · cases v with
    | str t =>
      by_cases h1 : t = "\r\n"
      · simp [eosStep, eosModernSpec, h1]
      · by_cases h2 : t = "\r"
        · simp [eosStep, eosModernSpec, h1, h2]
        · by_cases h3 : t = "\n"
          · simp [eosStep, eosModernSpec, h1, h2, h3]
          · simp [eosStep, eosModernSpec, h1, h2, h3]
    | none => simp [eosStep, eosModernSpec]
    | int n =>
      by_cases hr : n < 0 ∨ n > 1114111
      · have : ¬ (0 ≤ n ∧ n ≤ 1114111) := by omega
        simp [eosStep, eosModernSpec, hr]
        omega
      · have hcr : chrStr n ≠ "\r\n" := chrStr_ne_crlf n
        by_cases h2 : chrStr n = "\r"
        · simp [eosStep, eosModernSpec, hr, hcr, h2]
          omega
        · by_cases h3 : chrStr n = "\n"
          · simp [eosStep, eosModernSpec, hr, hcr, h2, h3]
            omega
          · simp [eosStep, eosModernSpec, hr, hcr, h2, h3]
    | bool b => cases b <;> simp [eosStep, eosModernSpec, chrStr_0, chrStr_1]
    | list xs => simp [eosStep, eosModernSpec]
  · cases v with
    | str t =>
      by_cases h1 : t = "\r\n"
      · simp [eosStep, h1]
      · by_cases h2 : t = "\r"
        · simp [eosStep, h1, h2]
        · by_cases h3 : t = "\n"
          · simp [eosStep, h1, h2, h3]
          · simp [eosStep, h1, h2, h3]
    | none => simp [eosStep]
    | int n =>
      by_cases hr : n < 0 ∨ n > 1114111
      · simp [eosStep, hr]
      · have hcr : chrStr n ≠ "\r\n" := chrStr_ne_crlf n
        by_cases h2 : chrStr n = "\r"
        · simp [eosStep, hr, hcr, h2]
        · by_cases h3 : chrStr n = "\n"
          · simp [eosStep, hr, hcr, h2, h3]
          · simp [eosStep, hr, hcr, h2, h3]
    | bool b => cases b <;> simp [eosStep, chrStr_0, chrStr_1]
    | list xs => simp [eosStep]

/-- Counterexample for C4 as stated: the integer 10 — none of CRLF, CR,
LF, `None` — is accepted by the modern `eos` setter, which emits
`++eos 2` and caches `"\n"`. -/
theorem set_eos_modern_accepts_int :
    (set_eos Spl (PyVal.int 10)).err = Option.none ∧
    set_eos Spl (PyVal.int 10) =
      ⟨{ Spl with eos := PyVal.str "\n" }, [Event.cmd "++eos 2"],
       Option.none, Option.none⟩ ∧
    PyVal.int 10 ≠ PyVal.str "\r\n" ∧ PyVal.int 10 ≠ PyVal.str "\r" ∧
    PyVal.int 10 ≠ PyVal.str "\n" ∧ PyVal.int 10 ≠ PyVal.none := by decide

/-- Witness for C4's amended theorem at a Prologix session. -/
theorem set_eos_modern_spec_witness :
    isLegacy Spl = false ∧
    ((set_eos Spl (PyVal.none)).err = Option.none ↔ eosModernSpec PyVal.none = true) :=
  ⟨by decide, (set_eos_modern_spec Spl PyVal.none (by decide)).1⟩

theorem val_none_andThen (r : Res) (f : GPIB → Res) (h1 : r.val = Option.none)
    (h2 : ∀ s, (f s).val = Option.none) : (r.andThen f).val = Option.none := by
  unfold Res.andThen
  rcases h : r.err with _ | e <;> simp [h, h1, h2]

theorem set_eoi_val (s : GPIB) (v : PyVal) : (set_eoi s v).val = Option.none := by
  unfold set_eoi
  cases v <;> simp

theorem set_eos_val (s : GPIB) (v : PyVal) : (set_eos s v).val = Option.none := by
  unfold set_eos
  rcases h : eosStep (isLegacy s) v with e | ⟨w, c⟩ <;> simp [h]

theorem sendcmd_val (s : GPIB) (msg : String) : (sendcmd s msg).val = Option.none := by
  unfold sendcmd
  by_cases h : msg = "" <;> simp [h]
  · refine val_none_andThen _ _ ?_ (fun s4 => rfl)
    refine val_none_andThen _ _ ?_ (fun s3 => set_eos_val s3 _)
    refine val_none_andThen _ _ ?_ (fun s2 => rfl)
    exact val_none_andThen _ _ rfl (fun s1 => set_eoi_val s1 _)

theorem initread_val (s : GPIB) (size : Int) : (initread s size).val = Option.none := by
  unfold initread
  by_cases hm : s.model = Model.gi
  · simp [hm]
  · by_cases hs : size = -1 <;> simp [hm, hs]
    · by_cases ht : terminator s = some "eoi" <;> simp [ht]
      · rcases s.file_terminator with _ | ft <;> simp
        rcases h : pyOrd ft with _ | n <;> simp
        exact val_none_andThen _ _ rfl (fun s1 => sendcmd_val s1 _)
      · refine val_none_andThen _ _ rfl (fun s1 => ?_)
        rcases h : terminator s1 with _ | t <;> simp
        rcases h2 : pyOrd t with _ | n <;> simp
        exact sendcmd_val s1 _
    · exact val_none_andThen _ _ (sendcmd_val s _) (fun s1 => rfl)

/-- C2 (amended): `query(text, size)` performs `send_command(text)`, then
runs `begin_read(size)` *twice* — once directly and once again inside the
delegate `read`, which wraps `begin_read`/`end_read` around the single
channel read — and returns the channel data with surrounding whitespace
stripped.  So each query brackets one delegate read with two `_initread`
calls and one `_endread` call (and on GI sessions it fails through
`_initread`'s name error, cf. C1). -/
theorem query_runs_initread_twice (s : GPIB) (msg : String) (size : Int)
    (resp : String) :
    GPIBCommunicator.query s msg size resp =
      (let p := ((sendcmd s msg).andThen (fun s1 => initread s1 size)).andThen
                  (fun s2 =>
                    ((initread s2 size).andThen
                      (fun s3 => ⟨s3, [Event.fileRead size], Option.none, some resp⟩)).andThen
                        endread)
       ⟨p.st, p.tr, p.err,
        if p.err = Option.none then some (pyStrip resp) else Option.none⟩) := by
  unfold GPIBCommunicator.query GPIBCommunicator.read
  simp only []
  rcases hB : ((sendcmd s msg).andThen (fun s1 => initread s1 size)).err with _ | e
  · rw [andThen_of_ok _ _ hB, andThen_of_ok _ _ hB]
    simp only []
    rcases hq : (((initread (((sendcmd s msg).andThen fun s1 => initread s1 size)).st
        size).andThen
          (fun s1 => ⟨s1, [Event.fileRead size], Option.none, some resp⟩)).andThen
            endread).err with _ | e2 <;>
      simp [hq]
  · rw [andThen_of_err _ _ e hB, andThen_of_err _ _ e hB]
    have hv : ((sendcmd s msg).andThen (fun s1 => initread s1 size)).val = Option.none :=
      val_none_andThen _ _ (sendcmd_val s msg) (fun s1 => initread_val s1 size)
    simp [hB, hv]

/-- Counterexample for C2 as stated: on a freshly constructed Prologix
session, a query triggers the `++read eoi` priming command twice, whereas
the claimed composition — `send_command`, *one* `begin_read`, the
delegate read, `end_read` — triggers it once; the two traces differ. -/
theorem query_not_single_read_trigger :
    (GPIBCommunicator.query Spl "CMD" (-1) "ok").tr.count (Event.cmd "++read eoi") = 2 ∧
    (((sendcmd Spl "CMD").andThen (fun s1 => ((initread s1 (-1)).andThen
        (fun s2 => ⟨s2, [Event.fileRead (-1)], Option.none, some "ok"⟩)).andThen
          endread)).tr).count (Event.cmd "++read eoi") = 1 ∧
    (GPIBCommunicator.query Spl "CMD" (-1) "ok").tr ≠
      ((sendcmd Spl "CMD").andThen (fun s1 => ((initread s1 (-1)).andThen
        (fun s2 => ⟨s2, [Event.fileRead (-1)], Option.none, some "ok"⟩)).andThen
          endread)).tr := by decide

theorem andThen_err (r : Res) (f : GPIB → Res) :
    (r.andThen f).err =
      (match r.err with | some e => some e | Option.none => (f r.st).err) := by
  unfold Res.andThen
  rcases h : r.err with _ | e <;> simp [h]

theorem set_eos_err_eq (s : GPIB) (v : PyVal) :
    (set_eos s v).err =
      (match eosStep (isLegacy s) v with
       | .ok _ => Option.none
       | .error e => some e) := by
  unfold set_eos
  rcases h : eosStep (isLegacy s) v with e | w <;> simp [h]

theorem sendcmd_ok (s : GPIB) (msg : String) (w : PyVal) (ec : String)
    (hm : msg ≠ "") (he : eosStep (isLegacy s) s.eos = Except.ok (w, ec)) :
    sendcmd s msg =
      ⟨{ s with file_timeout := s.timeout_s, eos := w },
       [Event.cmd ((if s.model = Model.gi then "+a:" else "++addr ")
                    ++ pyStr s.gpib_address),
        Event.cmd ((if isLegacy s then "+eoi:" else "++eoi ")
                    ++ (if s.eoi then "1" else "0")),
        Event.cmd (if isLegacy s then "+t:" ++ toString (secInt s.timeout_s)
                   else "++read_tmo_ms " ++ toString (msInt s.timeout_s)),
        Event.setFileTimeout s.timeout_s,
        Event.cmd ec,
        Event.cmd msg, Event.sleep s.sleeptime], Option.none, Option.none⟩ := by
  obtain ⟨mo, ver, ga, ft, nt, tf, eoi, eos, ts, fts, slp, fa⟩ := s
  unfold sendcmd
  rw [if_neg hm]
  have h2 : eosStep (isLegacy ⟨mo, ver, ga, ft, nt, tf, eoi, eos, ts, ts, slp, fa⟩) eos
      = Except.ok (w, ec) := he
  simp [Res.andThen, set_eoi, set_timeout, set_eos, h2]

theorem readCmd_ne_empty (t : String) : ("++read " ++ t) ≠ ("" : String) := by
  intro h
  have h2 := congrArg String.data h
  simp at h2

/-- C7: for non-empty text, `send_command` re-sends — in order — the
model-appropriate addressing command, the EOI command, the timeout
command (together with the channel-timeout push), and the EOS command,
each reflecting the cached state, then writes the text to the channel and
sleeps `sleep_interval` seconds; empty text does nothing at all. -/
theorem sendcmd_reasserts_state (s : GPIB) (msg : String) (w : PyVal) (ec : String)
    (hm : msg ≠ "") (he : eosStep (isLegacy s) s.eos = Except.ok (w, ec)) :
    sendcmd s "" = ⟨s, [], Option.none, Option.none⟩ ∧
    sendcmd s msg =
      ⟨{ s with file_timeout := s.timeout_s, eos := w },
       [Event.cmd ((if s.model = Model.gi then "+a:" else "++addr ")
                    ++ pyStr s.gpib_address),
        Event.cmd ((if isLegacy s then "+eoi:" else "++eoi ")
                    ++ (if s.eoi then "1" else "0")),
        Event.cmd (if isLegacy s then "+t:" ++ toString (secInt s.timeout_s)
                   else "++read_tmo_ms " ++ toString (msInt s.timeout_s)),
        Event.setFileTimeout s.timeout_s,
        Event.cmd ec,
        Event.cmd msg, Event.sleep s.sleeptime], Option.none, Option.none⟩ :=
  ⟨by unfold sendcmd; simp, sendcmd_ok s msg w ec hm he⟩

/-- Witness for C7 at a freshly constructed Prologix session. -/
theorem sendcmd_reasserts_state_witness :
    ("FOO" : String) ≠ "" ∧
    eosStep (isLegacy Spl) Spl.eos = Except.ok (PyVal.str "\n", "++eos 2") ∧
    (sendcmd Spl "" = ⟨Spl, [], Option.none, Option.none⟩ ∧
     sendcmd Spl "FOO" =
       ⟨{ Spl with file_timeout := Spl.timeout_s, eos := PyVal.str "\n" },
        [Event.cmd ((if Spl.model = Model.gi then "+a:" else "++addr ")
                     ++ pyStr Spl.gpib_address),
         Event.cmd ((if isLegacy Spl then "+eoi:" else "++eoi ")
                     ++ (if Spl.eoi then "1" else "0")),
         Event.cmd (if isLegacy Spl then "+t:" ++ toString (secInt Spl.timeout_s)
                    else "++read_tmo_ms " ++ toString (msInt Spl.timeout_s)),
         Event.setFileTimeout Spl.timeout_s,
         Event.cmd "++eos 2",
         Event.cmd "FOO", Event.sleep Spl.sleeptime], Option.none, Option.none⟩) :=
  ⟨by decide, by rfl,
   sendcmd_reasserts_state Spl "FOO" (PyVal.str "\n") "++eos 2" (by decide) (by rfl)⟩

/-- C8: on a Prologix session performing an unbounded read with a
character terminator `c`, `_initread` swaps the channel terminator to
`c`, sends `++eot_enable 0`, and issues `++read <ord c>` (through the
full `sendcmd`, hence preceded by the address/EOI/timeout/EOS
re-assertion and followed by the settle sleep); `_endread` then restores
the channel terminator to the network default recorded at session start
and changes nothing else; and on a session whose terminator is `eoi`,
`_endread` does nothing at all. -/
theorem initread_char_term_spec (s s2 : GPIB) (c : String) (n : Int)
    (w : PyVal) (ec : String)
    (hpl : s.model = Model.pl) (ht : terminator s = some c) (hc : c ≠ "eoi")
    (hn : pyOrd c = some n) (he : eosStep false s.eos = Except.ok (w, ec))
    (hpl2 : s2.model = Model.pl) (ht2 : terminator s2 = some "eoi") :
    initread s (-1) =
      ⟨{ s with file_terminator := some c, file_timeout := s.timeout_s, eos := w },
       [Event.setFileTerm (some c), Event.cmd "++eot_enable 0",
        Event.cmd ("++addr " ++ pyStr s.gpib_address),
        Event.cmd ("++eoi " ++ (if s.eoi then "1" else "0")),
        Event.cmd ("++read_tmo_ms " ++ toString (msInt s.timeout_s)),
        Event.setFileTimeout s.timeout_s,
        Event.cmd ec,
        Event.cmd ("++read " ++ toString n), Event.sleep s.sleeptime],
       Option.none, Option.none⟩ ∧
    endread { s with file_terminator := some c, file_timeout := s.timeout_s, eos := w } =
      ⟨{ s with file_terminator := s.network_terminator,
                file_timeout := s.timeout_s, eos := w },
       [Event.setFileTerm s.network_terminator], Option.none, Option.none⟩ ∧
    endread s2 = ⟨s2, [], Option.none, Option.none⟩ := by
  obtain ⟨mo, ver, ga, ft, nt, tf, eoi, eos, ts, fts, slp, fa⟩ := s
  subst hpl
  cases eoi with
  | true =>
    exfalso
    apply hc
    have h3 := ht
    simp [terminator] at h3
    exact h3.symm
  | false =>
    have htf : tf = some c := by simpa [terminator] using ht
    subst htf
    have hsc : sendcmd ⟨Model.pl, ver, ga, some c, nt, some c, false, eos, ts, fts,
        slp, fa⟩ ("++read " ++ toString n) =
        ⟨⟨Model.pl, ver, ga, some c, nt, some c, false, w, ts, ts, slp, fa⟩,
         [Event.cmd ("++addr " ++ pyStr ga),
          Event.cmd ("++eoi " ++ "0"),
          Event.cmd ("++read_tmo_ms " ++ toString (msInt ts)),
          Event.setFileTimeout ts,
          Event.cmd ec,
          Event.cmd ("++read " ++ toString n), Event.sleep slp],
         Option.none, Option.none⟩ := by
      have h4 := sendcmd_ok ⟨Model.pl, ver, ga, some c, nt, some c, false, eos, ts,
        fts, slp, fa⟩ ("++read " ++ toString n) w ec (readCmd_ne_empty _) he
      simpa [isLegacy] using h4
    refine ⟨?_, ?_, ?_⟩
    · unfold initread
      simp only [terminator]
      simp [hc, hn, Res.andThen, hsc]
    · unfold endread
      simp [terminator, hc]
    · unfold endread
      simp [hpl2, ht2]

/-- Witness for C8: the Prologix session `SplLf` (terminator `"\n"`) for
the character-terminator read, and the fresh session `Spl` (terminator
`"eoi"`) for the `_endread` no-op. -/
theorem initread_char_term_spec_witness :
    SplLf.model = Model.pl ∧ terminator SplLf = some "\n" ∧
    ("\n" : String) ≠ "eoi" ∧ pyOrd "\n" = some 10 ∧
    eosStep false SplLf.eos = Except.ok (PyVal.str "\n", "++eos 2") ∧
    Spl.model = Model.pl ∧ terminator Spl = some "eoi" ∧
    (initread SplLf (-1) =
      ⟨{ SplLf with file_terminator := some "\n",
                    file_timeout := SplLf.timeout_s, eos := PyVal.str "\n" },
       [Event.setFileTerm (some "\n"), Event.cmd "++eot_enable 0",
        Event.cmd ("++addr " ++ pyStr SplLf.gpib_address),
        Event.cmd ("++eoi " ++ (if SplLf.eoi then "1" else "0")),
        Event.cmd ("++read_tmo_ms " ++ toString (msInt SplLf.timeout_s)),
        Event.setFileTimeout SplLf.timeout_s,
        Event.cmd "++eos 2",
        Event.cmd ("++read " ++ toString (10 : Int)), Event.sleep SplLf.sleeptime],
       Option.none, Option.none⟩ ∧
     endread { SplLf with file_terminator := some "\n",
                          file_timeout := SplLf.timeout_s, eos := PyVal.str "\n" } =
      ⟨{ SplLf with file_terminator := SplLf.network_terminator,
                    file_timeout := SplLf.timeout_s, eos := PyVal.str "\n" },
       [Event.setFileTerm SplLf.network_terminator], Option.none, Option.none⟩ ∧
     endread Spl = ⟨Spl, [], Option.none, Option.none⟩) :=
  ⟨by decide, by decide, by decide, by rfl, by rfl, by decide, by decide,
   initread_char_term_spec SplLf Spl "\n" 10 (PyVal.str "\n") "++eos 2"
     (by decide) (by decide) (by decide) (by rfl) (by rfl) (by decide) (by decide)⟩

theorem set_sleeptime_err_frame (s : GPIB) (q : ℚ)
    (h : (set_sleeptime s q).err ≠ Option.none) :
    set_sleeptime s q = ⟨s, [], some PyErr.valueError, Option.none⟩ := by
  unfold set_sleeptime at h ⊢
  by_cases hr : 0 ≤ q ∧ q ≤ 10 <;> simp [hr] at h ⊢

theorem set_eoi_err_frame (s : GPIB) (v : PyVal)
    (h : (set_eoi s v).err ≠ Option.none) :
    set_eoi s v = ⟨s, [], some PyErr.typeError, Option.none⟩ := by
  unfold set_eoi at h ⊢
  cases v <;> simp at h ⊢

theorem set_eos_err_frame (s : GPIB) (v : PyVal)
    (h : (set_eos s v).err ≠ Option.none) :
    (set_eos s v).st = s ∧ (set_eos s v).tr = [] := by
  rcases heq : eosStep (isLegacy s) v with e | ⟨w, c⟩
  · rw [set_eos_of_err s v e heq]
    exact ⟨rfl, rfl⟩
  · rw [set_eos_of_ok s v w c heq] at h
    simp at h

theorem set_terminator_modern_err_frame (s : GPIB) (v : PyVal)
    (hmod : isLegacy s = false)
    (h : (set_terminator s v).err ≠ Option.none) :
    (set_terminator s v).st = s ∧ (set_terminator s v).tr = [] := by
  unfold set_terminator at h ⊢
  rw [hmod] at h ⊢
  simp only [Bool.false_eq_true, if_false] at h ⊢
  generalize hv : (match v with | PyVal.str t => PyVal.str (pyLower t) | w => w) = v'
    at h ⊢
  by_cases he : v' = PyVal.str "eoi"
  · exfalso
    apply h
    rw [if_neg (by simp [he])]
    rw [set_eos_of_ok s PyVal.none PyVal.none "++eos 3" (by rw [hmod]; rfl)]
    simp [Res.andThen, set_eoi]
  · rw [if_pos (by simp [he])] at h ⊢
    rcases heq : eosStep false v' with e | ⟨w, c⟩
    · rw [set_eos_of_err _ _ e (by rw [hmod]; exact heq)] at h ⊢
      simp [Res.andThen]
    · exfalso
      apply h
      rw [set_eos_of_ok _ _ w c (by rw [hmod]; exact heq)]
      simp [Res.andThen, set_eoi]

theorem set_terminator_legacy_err_frame (s : GPIB) (v : PyVal)
    (hleg : isLegacy s = true)
    (h : (set_terminator s v).err ≠ Option.none) :
    (set_terminator s v).st = s ∧ (set_terminator s v).tr = [] := by
  have hleg2 : (s.model == Model.gi && decide (s.version ≤ 4)) = true := by
    simpa [isLegacy] using hleg
  unfold set_terminator at h ⊢
  rw [hleg] at h ⊢
  simp only [if_true] at h ⊢
  generalize hv : (match v with | PyVal.str t => PyVal.str (pyLower t) | w => w) = v'
    at h ⊢
  by_cases he : v' = PyVal.str "eoi"
  · exfalso
    apply h
    rw [if_pos he]
    simp [set_eoi]
  · rw [if_neg he] at h ⊢
    rcases v' with n | t | b | _ | xs
    · -- int input: out of range is rejected untouched; in range all succeeds
      simp only [PyVal.asInt?] at h ⊢
      by_cases hr : n < 0 ∨ n > 255
      · rw [if_pos hr] at h ⊢
        simp
      · exfalso
        apply h
        rw [if_neg hr]
        simp [andThen_err, set_eoi, set_eos_err_eq, isLegacy, hleg2, eosStep]
    · -- string input: only a non-single-character string errors (TypeError)
      simp only [PyVal.asInt?] at h ⊢
      rcases ho : pyOrd t with _ | n
      · simp only [ho] at h ⊢
        simp
      · exfalso
        apply h
        simp only [ho]
        simp [andThen_err, set_eoi, set_eos_err_eq, isLegacy, hleg2, eosStep]
    · -- bool input: Python treats it as the int 0 or 1, in range; all succeeds
      simp only [PyVal.asInt?] at h ⊢
      by_cases hr : (if b then (1:Int) else 0) < 0 ∨ (if b then (1:Int) else 0) > 255
      · exfalso
        cases b <;> simp at hr
      · exfalso
        apply h
        rw [if_neg hr]
        simp [andThen_err, set_eoi, set_eos_err_eq, isLegacy, hleg2, eosStep]
    · -- None input: TypeError, untouched
      exact ⟨rfl, rfl⟩
    · -- list input: TypeError, untouched
      exact ⟨rfl, rfl⟩

theorem set_address_list_one_valid (s : GPIB) (m : Int) (hm : 1 ≤ m ∧ m ≤ 30) :
    set_address s (.list [.int m]) =
      ⟨{ s with gpib_address := .int m }, [], some PyErr.indexError, Option.none⟩ := by
  unfold set_address set_address_scalar PyAtom.toVal
  simp only [PyVal.asInt?]
  rw [if_neg (by omega)]
  simp [Res.andThen]

/-- C5 (amended): every rejected assignment through the `sleeptime`,
`eoi`, `eos` and `terminator` setters, and through the integer form of
the `address` setter, leaves the session state and the channel exactly as
they were (validation happens before any mutation or command).  The one
exception is the list form of the `address` setter: a one-element list
`[m]` whose element is a valid address first updates the cached GPIB
address and only then raises `IndexError` while reading the missing
downstream element. -/
theorem setters_validate_before_mutating (s : GPIB) (q : ℚ) (v1 v2 v3 : PyVal)
    (n m : Int)
    (h1 : (set_sleeptime s q).err ≠ Option.none)
    (h2 : (set_eoi s v1).err ≠ Option.none)
    (h3 : (set_eos s v2).err ≠ Option.none)
    (h4 : (set_terminator s v3).err ≠ Option.none)
    (hn : n < 1 ∨ n > 30)
    (hm : 1 ≤ m ∧ m ≤ 30) :
    set_sleeptime s q = ⟨s, [], some PyErr.valueError, Option.none⟩ ∧
    set_eoi s v1 = ⟨s, [], some PyErr.typeError, Option.none⟩ ∧
    ((set_eos s v2).st = s ∧ (set_eos s v2).tr = []) ∧
    ((set_terminator s v3).st = s ∧ (set_terminator s v3).tr = []) ∧
    set_address s (.int n) = ⟨s, [], some PyErr.valueError, Option.none⟩ ∧
    set_address s (.list [.int m]) =
      ⟨{ s with gpib_address := .int m }, [], some PyErr.indexError,
       Option.none⟩ := by
  refine ⟨set_sleeptime_err_frame s q h1, set_eoi_err_frame s v1 h2,
          set_eos_err_frame s v2 h3, ?_, set_address_int_out_of_range s n hn,
          set_address_list_one_valid s m hm⟩
  cases hl : isLegacy s
  · exact set_terminator_modern_err_frame s v3 hl h4
  · exact set_terminator_legacy_err_frame s v3 hl h4

/-- Witness for C5's amended theorem on a legacy GI session: sleep time
11 s, a non-boolean EOI, a multi-character EOS string, a terminator byte
301, address 0, and address list `[7]`. -/
theorem setters_validate_before_mutating_witness :
    (set_sleeptime Sgi 11).err ≠ Option.none ∧
    (set_eoi Sgi (PyVal.str "x")).err ≠ Option.none ∧
    (set_eos Sgi (PyVal.str "ab")).err ≠ Option.none ∧
    (set_terminator Sgi (PyVal.int 301)).err ≠ Option.none ∧
    ((0 : Int) < 1 ∨ (0 : Int) > 30) ∧ ((1 : Int) ≤ 7 ∧ (7 : Int) ≤ 30) ∧
    (set_sleeptime Sgi 11 = ⟨Sgi, [], some PyErr.valueError, Option.none⟩ ∧
     set_eoi Sgi (PyVal.str "x") = ⟨Sgi, [], some PyErr.typeError, Option.none⟩ ∧
     ((set_eos Sgi (PyVal.str "ab")).st = Sgi ∧
      (set_eos Sgi (PyVal.str "ab")).tr = []) ∧
     ((set_terminator Sgi (PyVal.int 301)).st = Sgi ∧
      (set_terminator Sgi (PyVal.int 301)).tr = []) ∧
     set_address Sgi (.int 0) = ⟨Sgi, [], some PyErr.valueError, Option.none⟩ ∧
     set_address Sgi (.list [.int 7]) =
       ⟨{ Sgi with gpib_address := .int 7 }, [], some PyErr.indexError,
        Option.none⟩) :=
  ⟨by decide, by decide, by decide, by decide, by decide, by decide,
   setters_validate_before_mutating Sgi 11 (PyVal.str "x") (PyVal.str "ab")
     (PyVal.int 301) 0 7 (by decide) (by decide) (by decide) (by decide)
     (by decide) (by decide)⟩

/-- Counterexample for C5 as stated: assigning the one-element list `[7]`
to `address` on a session whose address is 5 raises `IndexError`, yet the
cached GPIB address has already been changed to 7 — a rejected assignment
that does not leave the state as it was. -/
theorem address_list_mutates_then_raises :
    (set_address Spl (PyVal.list [PyAtom.int 7])).err = some PyErr.indexError ∧
    (set_address Spl (PyVal.list [PyAtom.int 7])).st.gpib_address = PyVal.int 7 ∧
    Spl.gpib_address = PyVal.int 5 := by decide
